import Mathlib

/-!
Shallow embedding of the lease-cache simulator core (`src/lib.rs`,
`LeaseCache<Obj>`) and proofs about it.

Modelling conventions:
* `HashMap<Obj, usize>` is an association list `List (Obj × Nat)` with
  unique keys maintained by the operations (`mapLookup`, `mapInsert`,
  `mapRemove`).
* `HashSet<Obj>` is a duplicate-free `List Obj` (`setInsert`, `setRemove`).
* `Vec<HashSet<Obj>>` of length `MAX_EXPIRING_VEC_SIZE`, pre-filled with
  empty sets, is a sparse association list `List (Nat × List Obj)`: an
  absent index denotes the empty set (`vecGet`, `vecSet`).  All index
  arithmetic keeps the `% MAX_EXPIRING_VEC_SIZE` reductions of the source.
* A Rust panic (a failed `unwrap`, or a `usize` subtraction that would
  underflow, which aborts in debug builds) is `Outcome.crash`; a normal
  return is `Outcome.ok`.
* The process-wide random generator used by `remove_random_element` is
  modelled by an extra `pick : Nat` argument selecting the
  `pick % len`-th entry of the map's iteration order.
-/

namespace LeaseCacheSim

/-- Hit/Miss result type of `abstract_cache::AccessResult`. -/
inductive AccessResult where
  | Hit : AccessResult
  | Miss : AccessResult
deriving DecidableEq

/-- Result of running a Rust method that can panic: `ok` is a normal
return, `crash` is a panic (failed `unwrap` or underflowing `usize`
subtraction). -/
inductive Outcome (α : Type) where
  | ok : α → Outcome α
  | crash : Outcome α

/-- True when an `Outcome` is a normal (non-panicking) return. -/
def Outcome.isOk {α : Type} : Outcome α → Bool
  | Outcome.ok _ => true
  | Outcome.crash => false

variable {Obj : Type} [DecidableEq Obj]

/-- `HashMap::get`: first value bound to the key in the association list. -/
def mapLookup : List (Obj × Nat) → Obj → Option Nat
  | [], _ => none
  | p :: rest, o => if p.1 = o then some p.2 else mapLookup rest o

/-- `HashMap::remove`: drop every binding of the key (the operations keep
keys unique, so at most one binding exists). -/
def mapRemove (m : List (Obj × Nat)) (o : Obj) : List (Obj × Nat) :=
  m.filter (fun p => decide (p.1 ≠ o))

/-- `HashMap::insert`: bind the key to the value, replacing any previous
binding. -/
def mapInsert (m : List (Obj × Nat)) (o : Obj) (v : Nat) : List (Obj × Nat) :=
  (o, v) :: mapRemove m o

/-- `HashSet::insert` on a duplicate-free list. -/
def setInsert (s : List Obj) (o : Obj) : List Obj :=
  if o ∈ s then s else o :: s

/-- `HashSet::remove` (the caller separately checks membership to model the
returned boolean). -/
def setRemove (s : List Obj) (o : Obj) : List Obj :=
  s.filter (fun x => decide (x ≠ o))

/-- `expiring_vec[i]`: bucket at index `i`; absent means empty. -/
def vecGet (v : List (Nat × List Obj)) (i : Nat) : List Obj :=
  match v with
  | [] => []
  | p :: rest => if p.1 = i then p.2 else vecGet rest i

/-- Store bucket `b` at index `i` of the expiration vector. -/
def vecSet (v : List (Nat × List Obj)) (i : Nat) (b : List Obj) :
    List (Nat × List Obj) :=
  (i, b) :: v.filter (fun p => decide (p.1 ≠ i))

/-- `MAX_EXPIRING_VEC_SIZE` from the source. -/
def MAX_EXPIRING_VEC_SIZE : Nat := 10000000

/-- The `LeaseCache<Obj>` struct: circular expiration vector, current
clock index, content map (object → absolute expiration index), resident
counter, and the optional capacity bound. -/
structure LeaseCache (Obj : Type) where
  expiring_vec : List (Nat × List Obj)
  curr_expiring_index : Nat
  content_map : List (Obj × Nat)
  cache_consumption : Nat
  cache_size : Option Nat

/-- `LeaseCache::new()`: `MAX_EXPIRING_VEC_SIZE` empty buckets (sparse:
no stored entries), clock index 0, empty content map, zero consumption,
no capacity bound. -/
def LeaseCache.new {Obj : Type} : LeaseCache Obj :=
  { expiring_vec := []
    curr_expiring_index := 0
    content_map := []
    cache_consumption := 0
    cache_size := none }

/-- `LeaseCache::insert`: add the object to the bucket at
`(curr_expiring_index + lease) % MAX_EXPIRING_VEC_SIZE` and record that
index in the content map.  Note: the source does not touch
`cache_consumption` here. -/
def insert (s : LeaseCache Obj) (obj_id : Obj) (lease : Nat) : LeaseCache Obj :=
  let absolute_index := (s.curr_expiring_index + lease) % MAX_EXPIRING_VEC_SIZE
  { s with
    expiring_vec :=
      vecSet s.expiring_vec absolute_index
        (setInsert (vecGet s.expiring_vec absolute_index) obj_id)
    content_map := mapInsert s.content_map obj_id absolute_index }

/-- `LeaseCache::dump_expiring`: advance the clock index by one (mod
`MAX_EXPIRING_VEC_SIZE`), take the bucket at the new index, subtract its
size from `cache_consumption` (an unguarded `usize` subtraction: `crash`
when it would underflow), drop its members from the content map, clear the
bucket, and return the expiring set. -/
def dump_expiring (s : LeaseCache Obj) : Outcome (List Obj × LeaseCache Obj) :=
  let new_index := (s.curr_expiring_index + 1) % MAX_EXPIRING_VEC_SIZE
  let expiring := vecGet s.expiring_vec new_index
  if expiring.length ≤ s.cache_consumption then
    Outcome.ok (expiring,
      { expiring_vec := vecSet s.expiring_vec new_index []
        curr_expiring_index := new_index
        content_map := expiring.foldl mapRemove s.content_map
        cache_consumption := s.cache_consumption - expiring.length
        cache_size := s.cache_size })
  else Outcome.crash

/-- `LeaseCache::update`: run `dump_expiring`, then look the object up.
Absent: lease 0 is a pure Miss, otherwise insert and bump
`cache_consumption`.  Present: remove the object from its recorded bucket
(`crash` models the `.then_some(()).unwrap()` panic when the bucket does
not contain it), re-insert when the lease is nonzero, and report Hit.
Note that the lease-0 hit path leaves the content-map entry in place, as
the source does. -/
def update (s : LeaseCache Obj) (obj_id : Obj) (lease : Nat) :
    Outcome (AccessResult × LeaseCache Obj) :=
  match dump_expiring s with
  | Outcome.crash => Outcome.crash
  | Outcome.ok (_, s1) =>
    match mapLookup s1.content_map obj_id with
    | none =>
      match lease with
      | 0 => Outcome.ok (AccessResult.Miss, s1)
      | Nat.succ _ =>
        Outcome.ok (AccessResult.Miss,
          { insert s1 obj_id lease with
            cache_consumption := (insert s1 obj_id lease).cache_consumption + 1 })
    | some old_index =>
      if obj_id ∈ vecGet s1.expiring_vec old_index then
        let s2 := { s1 with
          expiring_vec :=
            vecSet s1.expiring_vec old_index
              (setRemove (vecGet s1.expiring_vec old_index) obj_id) }
        if lease ≠ 0 then Outcome.ok (AccessResult.Hit, insert s2 obj_id lease)
        else Outcome.ok (AccessResult.Hit, s2)
      else Outcome.crash

/-- `LeaseCache::contains`: key membership in the content map. -/
def contains (s : LeaseCache Obj) (obj_id : Obj) : Bool :=
  (mapLookup s.content_map obj_id).isSome

/-- `LeaseCache::get_time_till_eviction`: none when absent; when the
recorded index is strictly above the current index, their difference;
otherwise `MAX_EXPIRING_VEC_SIZE - curr + index` (circular wrap). -/
def get_time_till_eviction (s : LeaseCache Obj) (obj_id : Obj) : Option Nat :=
  match mapLookup s.content_map obj_id with
  | none => none
  | some index =>
    if s.curr_expiring_index < index then some (index - s.curr_expiring_index)
    else some (MAX_EXPIRING_VEC_SIZE - s.curr_expiring_index + index)

/-- `LeaseCache::get_cache_consumption`. -/
def get_cache_consumption (s : LeaseCache Obj) : Nat :=
  s.cache_consumption

/-- `LeaseCache::remove_from_cache`: `crash` models the `.unwrap()` panic
when the object is absent, and the underflowing `cache_consumption -= 1`
when the counter is already zero; otherwise remove the object from its
bucket and the content map and decrement the counter. -/
def remove_from_cache (s : LeaseCache Obj) (obj_id : Obj) :
    Outcome (LeaseCache Obj) :=
  match mapLookup s.content_map obj_id with
  | none => Outcome.crash
  | some index =>
    if 1 ≤ s.cache_consumption then
      Outcome.ok
        { s with
          expiring_vec :=
            vecSet s.expiring_vec index
              (setRemove (vecGet s.expiring_vec index) obj_id)
          content_map := mapRemove s.content_map obj_id
          cache_consumption := s.cache_consumption - 1 }
    else Outcome.crash

/-- `LeaseCache::remove_random_element`: choose an entry of the map
uniformly at random (modelled by the `pick` argument indexing the
iteration order) and remove it; `none` when the map is empty. -/
def remove_random_element (pick : Nat) (m : List (Obj × Nat)) :
    Option ((Obj × Nat) × List (Obj × Nat)) :=
  match m.get? (pick % m.length) with
  | none => none
  | some kv => some (kv, mapRemove m kv.1)

/-- `LeaseCache::force_evict`: remove a random content-map entry
(`crash` models the `.unwrap()` panic when the map is empty), then remove
the object from its recorded bucket (`crash` models the
`.then_some(()).unwrap()` panic when the bucket does not contain it). -/
def force_evict (pick : Nat) (s : LeaseCache Obj) :
    Outcome (Obj × LeaseCache Obj) :=
  match remove_random_element pick s.content_map with
  | none => Outcome.crash
  | some (kv, m2) =>
    if kv.1 ∈ vecGet s.expiring_vec kv.2 then
      Outcome.ok (kv.1,
        { s with
          content_map := m2
          expiring_vec :=
            vecSet s.expiring_vec kv.2
              (setRemove (vecGet s.expiring_vec kv.2) kv.1) })
    else Outcome.crash

/-- `CacheSim::set_capacity`. -/
def set_capacity (s : LeaseCache Obj) (cache_size : Nat) : LeaseCache Obj :=
  { s with cache_size := some cache_size }

/-- `CacheSim::cache_access` for `TaggedObjectId(lease, obj_id)` (modelled
as the pair `access`): run `update`, then compare `cache_consumption`
against `cache_size.unwrap()` (`crash` models the panic when no capacity
was ever set); when over the bound, `force_evict` once and decrement the
counter. -/
def cache_access (pick : Nat) (s : LeaseCache Obj) (access : Nat × Obj) :
    Outcome (AccessResult × LeaseCache Obj) :=
  match update s access.2 access.1 with
  | Outcome.crash => Outcome.crash
  | Outcome.ok (res, s1) =>
    match s1.cache_size with
    | none => Outcome.crash
    | some sz =>
      if sz < s1.cache_consumption then
        match force_evict pick s1 with
        | Outcome.crash => Outcome.crash
        | Outcome.ok (_, s2) =>
          if 1 ≤ s2.cache_consumption then
            Outcome.ok (res, { s2 with cache_consumption := s2.cache_consumption - 1 })
          else Outcome.crash
      else Outcome.ok (res, s1)

/-- Run a list of accesses through `cache_access`; each element carries
the random pick used by a potential eviction, the lease, and the object.
A panic anywhere aborts the whole run. -/
def run_accesses : List (Nat × Nat × Obj) → LeaseCache Obj →
    Outcome (LeaseCache Obj)
  | [], s => Outcome.ok s
  | a :: rest, s =>
    match cache_access a.1 s (a.2.1, a.2.2) with
    | Outcome.crash => Outcome.crash
    | Outcome.ok (_, s1) => run_accesses rest s1

/-- Run a list of `insert` calls (object, lease). -/
def insert_all (s : LeaseCache Obj) (xs : List (Obj × Nat)) : LeaseCache Obj :=
  xs.foldl (fun t p => insert t p.1 p.2) s

/-- Post-state of an `update` call, treating a panic as stuck (used only
to name concrete scenario states; all scenarios below stay on the `ok`
path, which the accompanying theorems prove). -/
def stepState (s : LeaseCache Obj) (obj_id : Obj) (lease : Nat) :
    LeaseCache Obj :=
  match update s obj_id lease with
  | Outcome.ok (_, s1) => s1
  | Outcome.crash => s

/-- The `AccessResult` of an `update`/`cache_access` outcome, `none` on a
panic. -/
def access_result (r : Outcome (AccessResult × LeaseCache Obj)) :
    Option AccessResult :=
  match r with
  | Outcome.ok (res, _) => some res
  | Outcome.crash => none

/-- Total number of object memberships across all expiration buckets
(`Σ |expiration_index buckets|` of the spec's cross-invariant). -/
def total_bucket_size (s : LeaseCache Obj) : Nat :=
  (s.expiring_vec.map (fun p => p.2.length)).sum

/-- State after `update(obj 1, lease 2)` on a fresh cache (the spec's
scenario object "A" is modelled as the numeral 1, "B" as 2). -/
def firstAccessState : LeaseCache Nat :=
  stepState LeaseCache.new 1 2

/-- State after `update(obj 1, lease 2); update(obj 1, lease 0)` on a
fresh cache: the renew-to-zero hit removed object 1 from its bucket but
left its content-map entry behind. -/
def danglingState : LeaseCache Nat :=
  stepState firstAccessState 1 0

/-- State after `update(obj 1, lease 2); update(obj 2, lease 0)` on a
fresh cache (the spec's concrete scenario, "A" as 1, "B" as 2). -/
def secondAccessState : LeaseCache Nat :=
  stepState firstAccessState 2 0

/-- A consistent cache caught just before the wraparound of the circular
expiration vector: the clock index is `MAX_EXPIRING_VEC_SIZE - 1` and
object 7 is recorded at bucket index 1 (as produced by an insert with
lease 2 at index `MAX_EXPIRING_VEC_SIZE - 1`), so its recorded index is
numerically at or before the current one. -/
def wrapState : LeaseCache Nat :=
  { expiring_vec := [(1, [7])]
    curr_expiring_index := 9999999
    content_map := [(7, 1)]
    cache_consumption := 1
    cache_size := none }

/-- C1: on the failing input (fresh cache, `update(1, 2)` then
`update(1, 0)`), the lease-0 access to the resident object 1 returns Hit,
but afterwards object 1 is still in the content map (`contains` is true,
its entry still records bucket 3) while bucket 3 no longer holds it — the
code removes it only from the expiration bucket, not from the content
index as the claim states. -/
theorem C1_lease_zero_hit_leaves_resident :
    update firstAccessState 1 0 = Outcome.ok (AccessResult.Hit, danglingState) ∧
    contains danglingState 1 = true ∧
    mapLookup danglingState.content_map 1 = some 3 ∧
    vecGet danglingState.expiring_vec 3 = [] :=
  ⟨rfl, rfl, rfl, rfl⟩

/-- C2: on a fresh cache on which `set_capacity` was never called
(`cache_size = none`), `cache_access` with lease 1 and object 5 panics at
`cache_size.unwrap()` instead of completing normally with Hit or Miss. -/
theorem C2_access_without_capacity_panics :
    (LeaseCache.new : LeaseCache Nat).cache_size = none ∧
    cache_access 0 (LeaseCache.new : LeaseCache Nat) (1, 5) = Outcome.crash :=
  ⟨rfl, rfl⟩

/-- C3: after the reachable sequence `update(1, 2); update(1, 0)` from a
fresh cache, the content index holds one entry while the total membership
over all expiration buckets is zero, so the cross-index invariant
`content_index.len() = Σ |buckets|` is violated by the public operation
`update`. -/
theorem C3_cross_index_invariant_violated :
    danglingState.content_map.length = 1 ∧
    total_bucket_size danglingState = 0 :=
  ⟨rfl, rfl⟩

/-- C9 counterexample: immediately after `process_access(2, "A")`
(modelled as `update` with object 1, lease 2) on a fresh cache,
`time_until_eviction("A")` is 2 — not 1 as the claim states (the code
inserts relative to the already-advanced clock, and its own unit test
`test_lease_zero` asserts the value 1 only after a second access). -/
theorem C9_first_ttl_counterexample :
    get_time_till_eviction firstAccessState 1 ≠ some 1 := by
  decide

/-- C9 amended: `process_access(2, "A")` on a fresh cache returns Miss and
leaves `time_until_eviction("A") = 2`; the following `process_access(0,
"B")` returns Miss, leaves `contains("B")` false, and
`time_until_eviction("A") = 1` ("A" modelled as object 1, "B" as 2). -/
theorem C9_scenario_amended :
    access_result (update (LeaseCache.new : LeaseCache Nat) 1 2) =
      some AccessResult.Miss ∧
    get_time_till_eviction firstAccessState 1 = some 2 ∧
    access_result (update firstAccessState 2 0) = some AccessResult.Miss ∧
    contains secondAccessState 2 = false ∧
    get_time_till_eviction secondAccessState 1 = some 1 :=
  ⟨rfl, rfl, rfl, rfl, rfl⟩

/-- C10: after `insert(1, 1)` on a fresh cache — which leaves
`cache_consumption` at 0 while bucket 1 holds one object — the next
`update` call (here with object 2, lease 0) reaches the unguarded
`cache_consumption -= expiring.len()` in `dump_expiring` with
`0 - 1`, underflowing the unsigned counter (modelled as `crash`). -/
theorem C10_dump_expiring_underflow :
    get_cache_consumption (insert (LeaseCache.new : LeaseCache Nat) 1 1) = 0 ∧
    (vecGet (insert (LeaseCache.new : LeaseCache Nat) 1 1).expiring_vec 1).length = 1 ∧
    dump_expiring (insert (LeaseCache.new : LeaseCache Nat) 1 1) = Outcome.crash ∧
    update (insert (LeaseCache.new : LeaseCache Nat) 1 1) 2 0 = Outcome.crash :=
  ⟨rfl, rfl, rfl, rfl⟩

/-- C4 counterexample: `force_evict` on a fresh cache with zero resident
objects does not return normally with a reported error value — it panics
(`unwrap` on `None`, modelled as `crash`); there is no error-reporting
return path in its `Obj`-valued signature. -/
theorem C4_empty_evict_counterexample :
    (force_evict 0 (LeaseCache.new : LeaseCache Nat)).isOk = false :=
  rfl

/-- C5 counterexample: `remove_from_cache` on a fresh cache and the
non-resident object 1 does not return normally leaving the state
unchanged — it panics (`unwrap` of the missing content-map entry,
modelled as `crash`). -/
theorem C5_remove_absent_counterexample :
    (remove_from_cache (LeaseCache.new : LeaseCache Nat) 1).isOk = false :=
  rfl

/-- C6 counterexample: after a single `insert` of a fresh distinct object
with lease 3 (N = 1), `get_cache_consumption` does not return 1 — the
source's `insert` never increments the consumption counter. -/
theorem C6_insert_count_counterexample :
    get_cache_consumption (insert (LeaseCache.new : LeaseCache Nat) 5 3) ≠ 1 := by
  decide

/-- C7 counterexample: in `wrapState` the resident object 7 has its
recorded expiration index (1) at or before the current clock index
(9999999), and `get_time_till_eviction` returns the circular distance
`some 2`, not the saturated `some 0` the claim states. -/
theorem C7_no_saturation_counterexample :
    get_time_till_eviction wrapState 7 ≠ some 0 := by
  decide

/-- Lookup misses exactly when no entry carries the key. -/
theorem mapLookup_eq_none_iff {m : List (Obj × Nat)} {o : Obj} :
    mapLookup m o = none ↔ ∀ p ∈ m, p.1 ≠ o := by
  induction m with
  | nil => simp [mapLookup]
  | cons p rest ih =>
    by_cases h : p.1 = o <;> simp [mapLookup, h, ih]

/-- Removing an absent key leaves the map unchanged. -/
theorem mapRemove_eq_of_not_mem {m : List (Obj × Nat)} {o : Obj}
    (h : ∀ p ∈ m, p.1 ≠ o) : mapRemove m o = m :=
  List.filter_eq_self.mpr (fun p hp => by simpa using h p hp)

/-- Removing one key does not affect lookups of another. -/
theorem mapLookup_mapRemove_ne {m : List (Obj × Nat)} {o x : Obj}
    (h : x ≠ o) : mapLookup (mapRemove m o) x = mapLookup m x := by
  induction m with
  | nil => rfl
  | cons p rest ih =>
    by_cases hp : p.1 = o
    · have hpx : ¬ p.1 = x := fun e => h (e.symm.trans hp)
      have hdrop : mapRemove (p :: rest) o = mapRemove rest o := by
        simp [mapRemove, List.filter_cons, hp]
      rw [hdrop, ih]
      simp only [mapLookup, if_neg hpx]
    · have hkeep : mapRemove (p :: rest) o = p :: mapRemove rest o := by
        simp [mapRemove, List.filter_cons, hp]
      rw [hkeep]
      simp only [mapLookup]
      by_cases hx : p.1 = x
      · rw [if_pos hx, if_pos hx]
      · rw [if_neg hx, if_neg hx, ih]

/-- Inserting one key does not affect lookups of another. -/
theorem mapLookup_mapInsert_ne {m : List (Obj × Nat)} {o x : Obj} {v : Nat}
    (h : x ≠ o) : mapLookup (mapInsert m o v) x = mapLookup m x := by
  have hox : o ≠ x := fun e => h e.symm
  simp [mapInsert, mapLookup, hox, mapLookup_mapRemove_ne h]

/-- Inserting a fresh key grows the map by exactly one entry. -/
theorem length_mapInsert_of_lookup_none {m : List (Obj × Nat)} {o : Obj}
    {v : Nat} (h : mapLookup m o = none) :
    (mapInsert m o v).length = m.length + 1 := by
  simp [mapInsert, mapRemove_eq_of_not_mem (mapLookup_eq_none_iff.mp h)]

/-- An entry of the map makes the lookup of its key succeed. -/
theorem mapLookup_isSome_of_mem {m : List (Obj × Nat)} {p : Obj × Nat}
    (h : p ∈ m) : (mapLookup m p.1).isSome = true := by
  induction m with
  | nil => cases h
  | cons q rest ih =>
    rcases List.mem_cons.mp h with rfl | h2
    · simp [mapLookup]
    · by_cases hq : q.1 = p.1 <;> simp [mapLookup, hq, ih h2]

/-- C5 amended: `remove_from_cache` on a non-resident object panics
(`crash`, the `unwrap` of the missing content-map entry) instead of being
a no-op. -/
theorem C5_remove_absent_panics (s : LeaseCache Obj) (o : Obj)
    (h : mapLookup s.content_map o = none) :
    remove_from_cache s o = Outcome.crash := by
  simp [remove_from_cache, h]

/-- C5 witness: object 2 is absent from a fresh cache, and removing it
panics. -/
theorem C5_remove_absent_witness :
    mapLookup (LeaseCache.new : LeaseCache Nat).content_map 2 = none ∧
    remove_from_cache (LeaseCache.new : LeaseCache Nat) 2 = Outcome.crash :=
  ⟨rfl, C5_remove_absent_panics LeaseCache.new 2 rfl⟩

/-- Inserting objects never changes the consumption counter, and with
pairwise-distinct keys all fresh for the starting state it grows the
content map by one entry each. -/
theorem insert_all_fresh (xs : List (Obj × Nat)) :
    ∀ s : LeaseCache Obj, (xs.map Prod.fst).Nodup →
    (∀ p ∈ xs, mapLookup s.content_map p.1 = none) →
    (insert_all s xs).cache_consumption = s.cache_consumption ∧
    (insert_all s xs).content_map.length = s.content_map.length + xs.length := by
  induction xs with
  | nil => intro s _ _; exact ⟨rfl, rfl⟩
  | cons p rest ih =>
    intro s hnd hf
    have hlook : mapLookup s.content_map p.1 = none :=
      hf p (List.mem_cons_self p rest)
    have hnd2 : (rest.map Prod.fst).Nodup :=
      (List.nodup_cons.mp (by simpa using hnd)).2
    have hnotmem : p.1 ∉ rest.map Prod.fst :=
      (List.nodup_cons.mp (by simpa using hnd)).1
    have hhead : ∀ q ∈ rest, q.1 ≠ p.1 := by
      intro q hq e
      exact hnotmem (e ▸ List.mem_map_of_mem Prod.fst hq)
    have hf2 : ∀ q ∈ rest,
        mapLookup (insert s p.1 p.2).content_map q.1 = none := by
      intro q hq
      have hins : (insert s p.1 p.2).content_map =
          mapInsert s.content_map p.1
            ((s.curr_expiring_index + p.2) % MAX_EXPIRING_VEC_SIZE) := rfl
      rw [hins, mapLookup_mapInsert_ne (hhead q hq)]
      exact hf q (List.mem_cons_of_mem _ hq)
    obtain ⟨h1, h2⟩ := ih (insert s p.1 p.2) hnd2 hf2
    constructor
    · show (insert_all (insert s p.1 p.2) rest).cache_consumption = _
      rw [h1]; rfl
    · show (insert_all (insert s p.1 p.2) rest).content_map.length = _
      rw [h2]
      have h3 : (insert s p.1 p.2).content_map.length =
          s.content_map.length + 1 :=
        length_mapInsert_of_lookup_none hlook
      rw [h3]
      simp [List.length_cons]
      omega

/-- C6 amended: for every sequence of inserts of pairwise-distinct
objects with positive leases starting from a fresh cache (no clock ticks
occur during `insert`), `get_cache_consumption` returns 0 — `insert`
leaves the consumption counter untouched — while the content index holds
exactly N entries. -/
theorem C6_insert_leaves_count_zero (xs : List (Nat × Nat))
    (hnd : (xs.map Prod.fst).Nodup) (_hpos : ∀ p ∈ xs, 0 < p.2) :
    get_cache_consumption (insert_all LeaseCache.new xs) = 0 ∧
    (insert_all (LeaseCache.new : LeaseCache Nat) xs).content_map.length =
      xs.length := by
  have h := insert_all_fresh xs LeaseCache.new hnd (fun p _ => rfl)
  simpa [get_cache_consumption, LeaseCache.new] using h

/-- C6 witness: two distinct objects inserted with positive leases leave
the counter at 0 and the content map with two entries. -/
theorem C6_insert_count_witness :
    get_cache_consumption
      (insert_all (LeaseCache.new : LeaseCache Nat) [(1, 1), (2, 2)]) = 0 ∧
    (insert_all (LeaseCache.new : LeaseCache Nat)
      [(1, 1), (2, 2)]).content_map.length = 2 :=
  C6_insert_leaves_count_zero [(1, 1), (2, 2)] (by decide) (by decide)

/-- C7 amended: `get_time_till_eviction` returns `none` for a
non-resident object; for a resident object with recorded index strictly
above the current clock index it returns their difference; and for a
resident object whose recorded index is at or before the current index it
returns the circular distance `MAX_EXPIRING_VEC_SIZE - curr + index`
(which is `MAX_EXPIRING_VEC_SIZE`, not 0, when the index equals the
current one) — there is no saturating subtraction. -/
theorem C7_time_till_eviction_cases (s : LeaseCache Obj) (o : Obj) :
    (mapLookup s.content_map o = none → get_time_till_eviction s o = none) ∧
    ∀ i, mapLookup s.content_map o = some i →
      (s.curr_expiring_index < i →
        get_time_till_eviction s o = some (i - s.curr_expiring_index)) ∧
      (i ≤ s.curr_expiring_index →
        get_time_till_eviction s o =
          some (MAX_EXPIRING_VEC_SIZE - s.curr_expiring_index + i)) := by
  refine ⟨fun h => by simp [get_time_till_eviction, h],
    fun i hi => ⟨fun hlt => ?_, fun hle => ?_⟩⟩
  · simp [get_time_till_eviction, hi, hlt]
  · simp [get_time_till_eviction, hi, Nat.not_lt.mpr hle]

/-- C7 witness: concrete instances of all three cases — a live object
five ticks out, a non-resident object, and the wraparound case returning
the circular distance. -/
theorem C7_time_till_eviction_witness :
    get_time_till_eviction (insert (LeaseCache.new : LeaseCache Nat) 3 5) 3 =
      some 5 ∧
    get_time_till_eviction (insert (LeaseCache.new : LeaseCache Nat) 3 5) 4 =
      none ∧
    get_time_till_eviction wrapState 7 = some 2 := by
  refine ⟨?_, ?_, ?_⟩
  · exact ((C7_time_till_eviction_cases
      (insert (LeaseCache.new : LeaseCache Nat) 3 5) 3).2 5 (by decide)).1
      (by decide)
  · exact (C7_time_till_eviction_cases
      (insert (LeaseCache.new : LeaseCache Nat) 3 5) 4).1 (by decide)
  · exact ((C7_time_till_eviction_cases wrapState 7).2 1 (by decide)).2
      (by decide)

/-- C4 amended: `force_evict` on a cache with zero resident objects
panics (`unwrap` on `None`, modelled as `crash`) — an unchecked crash, not
a reported recoverable error; on every non-empty cache whose content-map
entries all have their recorded bucket membership, it returns some
currently resident object. -/
theorem C4_force_evict_cases (pick : Nat) (s : LeaseCache Obj) :
    (s.content_map = [] → force_evict pick s = Outcome.crash) ∧
    ((∀ p ∈ s.content_map, p.1 ∈ vecGet s.expiring_vec p.2) →
      s.content_map ≠ [] →
      ∃ o s2, force_evict pick s = Outcome.ok (o, s2) ∧
        contains s o = true) := by
  constructor
  · intro he
    simp [force_evict, remove_random_element, he]
  · intro hb hne
    have hlen : 0 < s.content_map.length := List.length_pos.mpr hne
    have hlt : pick % s.content_map.length < s.content_map.length :=
      Nat.mod_lt _ hlen
    have hget : s.content_map.get? (pick % s.content_map.length) =
        some (s.content_map.get ⟨pick % s.content_map.length, hlt⟩) :=
      List.get?_eq_get hlt
    have hmem : s.content_map.get ⟨pick % s.content_map.length, hlt⟩ ∈
        s.content_map := List.get_mem _ _ _
    have hrr : remove_random_element pick s.content_map =
        some (s.content_map.get ⟨pick % s.content_map.length, hlt⟩,
          mapRemove s.content_map
            (s.content_map.get ⟨pick % s.content_map.length, hlt⟩).1) := by
      unfold remove_random_element
      rw [hget]
    refine ⟨(s.content_map.get ⟨pick % s.content_map.length, hlt⟩).1, ?_,
      ?_, ?_⟩
    · exact { s with
        content_map := mapRemove s.content_map
          (s.content_map.get ⟨pick % s.content_map.length, hlt⟩).1
        expiring_vec :=
          vecSet s.expiring_vec
            (s.content_map.get ⟨pick % s.content_map.length, hlt⟩).2
            (setRemove
              (vecGet s.expiring_vec
                (s.content_map.get ⟨pick % s.content_map.length, hlt⟩).2)
              (s.content_map.get ⟨pick % s.content_map.length, hlt⟩).1) }
    · unfold force_evict
      rw [hrr]
      simp
      exact hb _ hmem
    · exact mapLookup_isSome_of_mem hmem

/-- C4 witness: on the non-empty consistent cache obtained by
`insert(1, 1)` on a fresh cache, `force_evict` returns normally with a
resident object. -/
theorem C4_force_evict_witness :
    ∃ o s2, force_evict 0 (insert (LeaseCache.new : LeaseCache Nat) 1 1) =
      Outcome.ok (o, s2) ∧
      contains (insert (LeaseCache.new : LeaseCache Nat) 1 1) o = true :=
  (C4_force_evict_cases 0 (insert (LeaseCache.new : LeaseCache Nat) 1 1)).2
    (by decide) (by decide)

/-- The consumption counter is untouched by `insert`. -/
theorem insert_cache_consumption (s : LeaseCache Obj) (o : Obj) (l : Nat) :
    (insert s o l).cache_consumption = s.cache_consumption := rfl

/-- The capacity bound is untouched by `insert`. -/
theorem insert_cache_size (s : LeaseCache Obj) (o : Obj) (l : Nat) :
    (insert s o l).cache_size = s.cache_size := rfl

/-- A returning `dump_expiring` only decreases the consumption counter
and keeps the capacity bound. -/
theorem dump_expiring_step {s : LeaseCache Obj} {e : List Obj}
    {s1 : LeaseCache Obj} (h : dump_expiring s = Outcome.ok (e, s1)) :
    s1.cache_consumption ≤ s.cache_consumption ∧
    s1.cache_size = s.cache_size := by
  simp only [dump_expiring] at h
  split at h
  · cases h
    exact ⟨Nat.sub_le _ _, rfl⟩
  · exact Outcome.noConfusion h

/-- A returning `update` increases the consumption counter by at most one
and keeps the capacity bound. -/
theorem update_step {s : LeaseCache Obj} {o : Obj} {l : Nat}
    {r : AccessResult} {s2 : LeaseCache Obj}
    (h : update s o l = Outcome.ok (r, s2)) :
    s2.cache_consumption ≤ s.cache_consumption + 1 ∧
    s2.cache_size = s.cache_size := by
  unfold update at h
  split at h
  · exact Outcome.noConfusion h
  · rename_i e s1 hd
    obtain ⟨hd1, hd2⟩ := dump_expiring_step hd
    split at h
    · split at h
      · cases h
        exact ⟨by omega, hd2⟩
      · cases h
        refine ⟨?_, ?_⟩
        · show s1.cache_consumption + 1 ≤ s.cache_consumption + 1
          omega
        · show s1.cache_size = s.cache_size
          exact hd2
    · rename_i idx hlook
      split at h
      · split at h
        · cases h
          refine ⟨?_, ?_⟩
          · show s1.cache_consumption ≤ s.cache_consumption + 1
            omega
          · show s1.cache_size = s.cache_size
            exact hd2
        · cases h
          refine ⟨?_, ?_⟩
          · show s1.cache_consumption ≤ s.cache_consumption + 1
            omega
          · show s1.cache_size = s.cache_size
            exact hd2
      · exact Outcome.noConfusion h

/-- A returning `force_evict` keeps the consumption counter and the
capacity bound (the source decrements the counter separately in
`cache_access`). -/
theorem force_evict_step {pick : Nat} {s : LeaseCache Obj} {o : Obj}
    {s2 : LeaseCache Obj} (h : force_evict pick s = Outcome.ok (o, s2)) :
    s2.cache_consumption = s.cache_consumption ∧
    s2.cache_size = s.cache_size := by
  unfold force_evict at h
  split at h
  · exact Outcome.noConfusion h
  · split at h
    · cases h
      exact ⟨rfl, rfl⟩
    · exact Outcome.noConfusion h

/-- A returning `cache_access` on a cache with capacity bound `k` and at
most `k` residents leaves at most `k` residents and the same bound. -/
theorem cache_access_step {pick : Nat} {s : LeaseCache Obj} {lease : Nat}
    {o : Obj} {k : Nat} {r : AccessResult} {s2 : LeaseCache Obj}
    (hk : s.cache_size = some k) (hc : s.cache_consumption ≤ k)
    (h : cache_access pick s (lease, o) = Outcome.ok (r, s2)) :
    s2.cache_consumption ≤ k ∧ s2.cache_size = some k := by
  unfold cache_access at h
  split at h
  · exact Outcome.noConfusion h
  · rename_i res s1 hu
    obtain ⟨hu1, hu2⟩ := update_step hu
    split at h
    · exact Outcome.noConfusion h
    · rename_i sz hsz
      have hszk : sz = k := by
        rw [hu2, hk] at hsz
        exact (Option.some.inj hsz).symm
      split at h
      · rename_i hover
        split at h
        · exact Outcome.noConfusion h
        · rename_i o2 s3 hf
          obtain ⟨hf1, hf2⟩ := force_evict_step hf
          split at h
          · cases h
            refine ⟨?_, ?_⟩
            · show s3.cache_consumption - 1 ≤ k
              omega
            · show s3.cache_size = some k
              rw [hf2, hu2, hk]
          · exact Outcome.noConfusion h
      · rename_i hunder
        cases h
        exact ⟨by omega, by rw [hu2, hk]⟩

/-- Running any sequence of accesses from a state with capacity bound `k`
and at most `k` residents keeps the resident count within `k` (every
intermediate state of a run is itself the final state of a prefix run,
so this bounds the count after every call that returns). -/
theorem run_accesses_bound {k : Nat} :
    ∀ (accs : List (Nat × Nat × Obj)) (s s2 : LeaseCache Obj),
    s.cache_size = some k → s.cache_consumption ≤ k →
    run_accesses accs s = Outcome.ok s2 →
    s2.cache_consumption ≤ k ∧ s2.cache_size = some k := by
  intro accs
  induction accs with
  | nil =>
    intro s s2 hk hc h
    cases h
    exact ⟨hc, hk⟩
  | cons a rest ih =>
    intro s s2 hk hc h
    unfold run_accesses at h
    split at h
    · exact Outcome.noConfusion h
    · rename_i r s1 ha
      obtain ⟨h1, h2⟩ := cache_access_step hk hc ha
      exact ih s1 s2 h2 h1 h

/-- C8: after `set_capacity(k)` with `k ≥ 1` on a cache holding at most
`k` residents, every sequence of `cache_access` calls that returns keeps
`get_cache_consumption ≤ k` after each call (each call evicts at most the
one object its single eviction step needs). -/
theorem C8_capacity_bound (accs : List (Nat × Nat × Obj))
    (s s2 : LeaseCache Obj) (k : Nat) (_hk1 : 1 ≤ k)
    (hcap : s.cache_size = some k) (hres : get_cache_consumption s ≤ k)
    (hrun : run_accesses accs s = Outcome.ok s2) :
    get_cache_consumption s2 ≤ k :=
  (run_accesses_bound accs s s2 hcap hres hrun).1

/-- C8 witness: two misses with leases 5 on a fresh cache with capacity
1 return normally and leave the resident count at most 1 (the second
access triggers one eviction). -/
theorem C8_capacity_bound_witness :
    ∃ s2, run_accesses [(0, 5, 7), (0, 5, 8)]
      (set_capacity (LeaseCache.new : LeaseCache Nat) 1) = Outcome.ok s2 ∧
      get_cache_consumption s2 ≤ 1 := by
  refine ⟨_, rfl, C8_capacity_bound [(0, 5, 7), (0, 5, 8)]
    (set_capacity (LeaseCache.new : LeaseCache Nat) 1) _ 1
    (by decide) rfl (by decide) rfl⟩

end LeaseCacheSim
